import Mathlib

/-!
Shallow embedding of the queuebot suggestion lifecycle and voting engine
(`queuebot/cogs/queue/suggestion.py` and `queuebot/cogs/queue/__init__.py`).

Database rows are modelled as Lean structures; each Python method that
mutates the database becomes a function from the old row (plus an
environment describing the external collaborators it consults) to the new
row, paired with the exception it raises, if any.  Discord-side effects
(messages sent or deleted, temporary emoji) are tracked as counters where a
claim needs them.

Note on vote event naming: `suggestion.py` enumerates `VoteType` as
`YAY`/`NAY` (operator `+`/`-`), while the reaction listeners in
`__init__.py` refer to `VoteType.CAST`/`VoteType.REVOKE`.  The embedding
uses the `yay`/`nay` members actually defined, with `yay` playing the role
of a cast (reaction added) and `nay` of a revoke (reaction removed), which
is the mapping the listeners intend.
-/

namespace Queuebot

/-- Relevant fields of the bot configuration (`config.*`). -/
structure Config where
  approve_emoji_id : Nat
  deny_emoji_id : Nat
  required_votes : Int
  required_difference : Int
deriving DecidableEq

/-- External collaborators consulted during a transition: whether
`bot.get_emoji(record.emoji_id)` and `bot.get_user(record.user_id)` resolve,
the id Discord assigns to the newly sent public-queue message, and the
current time (`datetime.datetime.utcnow()`). -/
structure Env where
  emoji_found : Bool
  user_found : Bool
  new_public_message_id : Nat
  now : Nat
deriving DecidableEq

/-- A row of the `suggestions` table (the fields the core logic reads or
writes).  `council_approved` is a nullable boolean: `none` = pending,
`some true` = public queue, `some false` = denied. -/
structure SuggestionRecord where
  idx : Nat
  user_id : Nat
  upvotes : Int
  downvotes : Int
  council_approved : Option Bool
  revoked : Bool
  public_message_id : Option Nat
  council_message_id : Option Nat
  suggestions_message_id : Option Nat
  forced_by : Option Nat
  forced_reason : Option String
  validation_time : Option Nat
deriving DecidableEq

/-- `Suggestion.is_in_public_queue`: `record['council_approved'] is True`. -/
def SuggestionRecord.is_in_public_queue (s : SuggestionRecord) : Bool :=
  s.council_approved == some true

/-- `Suggestion.is_denied`: `record['council_approved'] is False` (`None` is
not accepted). -/
def SuggestionRecord.is_denied (s : SuggestionRecord) : Bool :=
  s.council_approved == some false

/-- `Suggestion.VoteType`: `YAY` (operator `+`, used for reaction-add /
cast) and `NAY` (operator `-`, used for reaction-remove / revoke). -/
inductive VoteType where
  | yay
  | nay
deriving DecidableEq

/-- `VoteType.operator`: `+1` for `YAY`, `-1` for `NAY`. -/
def VoteType.operator : VoteType → Int
  | .yay => 1
  | .nay => -1

/-- Exceptions raised by suggestion transitions:
`Suggestion.OperationError` and the bare `RuntimeError` raised by `deny`
when the uploaded emoji cannot be found. -/
inductive PyError where
  | operationError (msg : String)
  | runtimeError (msg : String)
deriving DecidableEq

/-- Whether a raised exception is a `Suggestion.OperationError`. -/
def isOpError : Option PyError → Bool
  | some (PyError.operationError _) => true
  | _ => false

/-- Whether a raised exception is the bare `RuntimeError`. -/
def isRuntimeError : Option PyError → Bool
  | some (PyError.runtimeError _) => true
  | _ => false

/-- `Suggestion.reset_votes`: `UPDATE suggestions SET upvotes = 0,
downvotes = 0`. -/
def reset_votes (s : SuggestionRecord) : SuggestionRecord :=
  { s with upvotes := 0, downvotes := 0 }

/-- `Suggestion.move_to_public_queue`.  Raises `OperationError` if the
suggestion is already in the public queue; returns early (no database
write, no exception) when the uploaded emoji cannot be resolved; otherwise
clears the council-queue message id (`delete_from_council_queue`), records
the public message id, sets `council_approved = TRUE` and the forced-by
metadata.  The returned pair is (raised exception, row after the call). -/
def move_to_public_queue (env : Env) (who : Option Nat) (reason : Option String)
    (s : SuggestionRecord) : Option PyError × SuggestionRecord :=
  if s.is_in_public_queue then
    (some (PyError.operationError
      "Cannot move this suggestion to the public approval queue -- it is already in the public approval queue."),
     s)
  else if !env.emoji_found then
    (none, s)
  else
    (none,
     { s with
        council_message_id := none,
        public_message_id := some env.new_public_message_id,
        council_approved := some true,
        forced_reason := reason,
        forced_by := who,
        validation_time := some env.now })

/-- `Suggestion.deny`.  Raises `OperationError` when already in the public
queue or already denied; raises `RuntimeError` (before any database write)
when the uploaded emoji cannot be resolved; otherwise sets
`council_approved = FALSE` with the forced-by metadata, sets `revoked` when
requested, and clears the council-queue message id. -/
def deny (env : Env) (who : Option Nat) (reason : Option String) (revoke : Bool)
    (s : SuggestionRecord) : Option PyError × SuggestionRecord :=
  if s.is_in_public_queue then
    (some (PyError.operationError
      "Cannot deny this suggestion -- it is already in the public queue."), s)
  else if s.is_denied then
    (some (PyError.operationError
      "Cannot deny this suggestion -- it has already been denied."), s)
  else if !env.emoji_found then
    (some (PyError.runtimeError
      "Error denying -- the uploaded emoji was not found."), s)
  else
    let s1 : SuggestionRecord :=
      { s with
          council_approved := some false,
          forced_reason := reason,
          forced_by := who,
          validation_time := some env.now }
    let s2 : SuggestionRecord := if revoke then { s1 with revoked := true } else s1
    (none, { s2 with council_message_id := none })

/-- `Suggestion.check_council_votes`: no action when the vote total is below
`required_votes`; otherwise resets the tally and moves to the public queue
when `upvotes - downvotes >= required_difference`, denies when
`downvotes - upvotes >= required_difference`, and otherwise does nothing. -/
def check_council_votes (cfg : Config) (env : Env) (s : SuggestionRecord) :
    Option PyError × SuggestionRecord :=
  if s.upvotes + s.downvotes < cfg.required_votes then
    (none, s)
  else if cfg.required_difference ≤ s.upvotes - s.downvotes then
    move_to_public_queue env none none (reset_votes s)
  else if cfg.required_difference ≤ s.downvotes - s.upvotes then
    deny env none none false s
  else
    (none, s)

/-- A row of the `council_votes` table: keyed by
`(suggestion_index, user_id)` with two nullable boolean columns
`has_approved` and `has_denied`. -/
structure CouncilVote where
  suggestion_index : Nat
  user_id : Nat
  has_approved : Option Bool
  has_denied : Option Bool
deriving DecidableEq

/-- Whether a ledger row has the given composite key. -/
def voteKeyMatches (idx who : Nat) (v : CouncilVote) : Bool :=
  v.suggestion_index == idx && v.user_id == who

/-- `DO UPDATE SET has_approved = value` (when `approval`) or
`DO UPDATE SET has_denied = value`; the other column is untouched. -/
def setVoteColumn (approval value : Bool) (v : CouncilVote) : CouncilVote :=
  if approval then { v with has_approved := some value }
  else { v with has_denied := some value }

/-- The freshly inserted row: only the written column is given a value, the
other stays NULL. -/
def newVoteRow (idx who : Nat) (approval value : Bool) : CouncilVote :=
  if approval then ⟨idx, who, some value, none⟩
  else ⟨idx, who, none, some value⟩

/-- `INSERT INTO council_votes ... ON CONFLICT (suggestion_index, user_id)
DO UPDATE SET {column} = value`: update the row with the key when one
exists, otherwise append a fresh row. -/
def upsertVote (ledger : List CouncilVote) (idx who : Nat) (approval value : Bool) :
    List CouncilVote :=
  if ledger.any (voteKeyMatches idx who) then
    ledger.map fun v =>
      if voteKeyMatches idx who v then setVoteColumn approval value v else v
  else
    ledger ++ [newVoteRow idx who approval value]

/-- The unconditional tally update of `process_vote`:
`UPDATE suggestions SET {vote_target} = {vote_target} {operator} 1`,
where the target column is `upvotes` when the reacted emoji is the approve
emoji and `downvotes` otherwise. -/
def applyTally (approval : Bool) (vt : VoteType) (s : SuggestionRecord) :
    SuggestionRecord :=
  if approval then { s with upvotes := s.upvotes + vt.operator }
  else { s with downvotes := s.downvotes + vt.operator }

/-- Result of `Suggestion.process_vote`: the exception propagated out of
`check_council_votes` (if any), the suggestion row and the `council_votes`
ledger after the call. -/
structure VoteOutcome where
  error : Option PyError
  suggestion : SuggestionRecord
  ledger : List CouncilVote
deriving DecidableEq

/-- `Suggestion.process_vote`: unconditionally applies the tally delta;
returns early when the suggestion has a public-queue message (public votes
are tallied but not ledgered or checked); otherwise upserts the ledger row
(column `has_approved`/`has_denied` chosen by the emoji, value TRUE for
`YAY` and FALSE for `NAY`) and runs `check_council_votes`. -/
def process_vote (cfg : Config) (env : Env) (vote_emoji_id : Nat) (vt : VoteType)
    (who : Nat) (s : SuggestionRecord) (ledger : List CouncilVote) : VoteOutcome :=
  let approval := vote_emoji_id == cfg.approve_emoji_id
  let s1 := applyTally approval vt s
  if s1.public_message_id.isSome then
    ⟨none, s1, ledger⟩
  else
    let ledger1 := upsertVote ledger s1.idx who approval (vt == VoteType.yay)
    let checked := check_council_votes cfg env s1
    ⟨checked.1, checked.2, ledger1⟩

/-- Result of a council command (`approve` / `deny`): the exception that
escaped (if any), the suggestion row after the command, and whether the
final success message was sent to the invoker. -/
structure CommandOutcome where
  error : Option PyError
  suggestion : SuggestionRecord
  success_reported : Bool
deriving DecidableEq

/-- The `approve` command: after confirmation it calls
`move_to_public_queue(who, reason)` and then reports success; an exception
skips the success report. -/
def approve_command (env : Env) (who : Nat) (reason : Option String)
    (confirmed : Bool) (s : SuggestionRecord) : CommandOutcome :=
  if !confirmed then ⟨none, s, false⟩
  else
    match move_to_public_queue env (some who) reason s with
    | (some e, s1) => ⟨some e, s1, false⟩
    | (none, s1) => ⟨none, s1, true⟩

/-- The `deny` command: after confirmation it calls `deny(who, reason)` and
then reports success; an exception skips the success report. -/
def deny_command (env : Env) (who : Nat) (reason : Option String)
    (confirmed : Bool) (s : SuggestionRecord) : CommandOutcome :=
  if !confirmed then ⟨none, s, false⟩
  else
    match deny env (some who) reason false s with
    | (some e, s1) => ⟨some e, s1, false⟩
    | (none, s1) => ⟨none, s1, true⟩

/-- One argument of the `vs` command as produced by
`PublicQueueOrEmojiConverter`: the tuple
`(suggestion_or_None, emoji_id, url, name)`. -/
structure VsEntry where
  suggestion : Option SuggestionRecord
  emoji_id : Nat
  url : String
  name : String
deriving DecidableEq

/-- How a `vs` invocation ended. -/
inductive VsOutcome where
  | tooFew
  | tooMany
  | duplicateEmoji
  | rejected
  | published
deriving DecidableEq

/-- Observable result of the `vs` command: the outcome, the `suggestions`
rows of the inputs after the call, how many temporary emoji were staged
during the run, how many of them survive it, and how many combined VS
messages were published. -/
structure VsResult where
  outcome : VsOutcome
  suggestions : List SuggestionRecord
  staged_temp_emoji : Nat
  surviving_temp_emoji : Nat
  vs_messages : Nat
deriving DecidableEq

/-- The `vs` command.  Validation (in source order): fewer than 2 entries,
more than 6 entries, then duplicate emoji ids (`set(x[1] for x in emoji)`);
each failure sends its message and returns before staging anything.  After
validation one temporary emoji per entry is staged; on a declined or
timed-out confirmation every temporary emoji is deleted and no suggestion
is touched; on confirmation a single combined message is published, the
temporary emoji are deleted, and each input suggestion only has its
public-queue Discord message removed (`remove_from_public_queue` performs
no database write), so the rows are unchanged in every path. -/
def vs (entries : List VsEntry) (confirmed : Bool) : VsResult :=
  let suggs := entries.filterMap VsEntry.suggestion
  if entries.length < 2 then
    ⟨VsOutcome.tooFew, suggs, 0, 0, 0⟩
  else if 6 < entries.length then
    ⟨VsOutcome.tooMany, suggs, 0, 0, 0⟩
  else if (entries.map VsEntry.emoji_id).dedup.length < entries.length then
    ⟨VsOutcome.duplicateEmoji, suggs, 0, 0, 0⟩
  else if !confirmed then
    ⟨VsOutcome.rejected, suggs, entries.length, 0, 0⟩
  else
    ⟨VsOutcome.published, suggs, entries.length, 0, 1⟩

/-- A pending sample row with the given tally, used for concrete checks. -/
def sampleRecord (up down : Int) : SuggestionRecord :=
  { idx := 1
    user_id := 10
    upvotes := up
    downvotes := down
    council_approved := none
    revoked := false
    public_message_id := none
    council_message_id := some 100
    suggestions_message_id := some 200
    forced_by := none
    forced_reason := none
    validation_time := none }

/-- A sample configuration with `required_votes = 5` and
`required_difference = 3`. -/
def cfg53 : Config := ⟨901, 902, 5, 3⟩

/-- A sample environment in which the emoji and the submitter resolve. -/
def sampleEnv : Env := ⟨true, true, 500, 1000⟩

/-- A denied sample row with an empty tally. -/
def deniedRecord : SuggestionRecord :=
  { sampleRecord 0 0 with council_approved := some false }

/-- A denied sample row with tally (3, 1), one vote short of the promote
threshold of `cfg53`. -/
def deniedRecord31 : SuggestionRecord :=
  { sampleRecord 3 1 with council_approved := some false }

/-- A sample row that has a public-queue message. -/
def publicRecord : SuggestionRecord :=
  { sampleRecord 0 0 with
      council_approved := some true, public_message_id := some 500 }

/-- A second public-queue sample row with tally (1, 2). -/
def publicRecord2 : SuggestionRecord :=
  { sampleRecord 1 2 with
      council_approved := some true, public_message_id := some 501 }

/-- A sample environment in which the uploaded emoji cannot be resolved. -/
def noEmojiEnv : Env := ⟨false, true, 500, 1000⟩

/-- A sample `vs` argument with emoji id 5. -/
def dupEntry : VsEntry := ⟨none, 5, "u", "a"⟩

/-- A `vs` argument carrying the first public-queue sample suggestion. -/
def vsEntryA : VsEntry := ⟨some publicRecord, 5, "u", "a"⟩

/-- A `vs` argument carrying the second public-queue sample suggestion. -/
def vsEntryB : VsEntry := ⟨some publicRecord2, 6, "v", "b"⟩

/-- First event of the duplicate-cast scenario: reviewer 10 adds the
approve reaction on the pending sample suggestion. -/
def doubleCastStep1 : VoteOutcome :=
  process_vote cfg53 sampleEnv 901 VoteType.yay 10 (sampleRecord 0 0) []

/-- Second event: the same reviewer adds the approve reaction again with no
intervening removal. -/
def doubleCastStep2 : VoteOutcome :=
  process_vote cfg53 sampleEnv 901 VoteType.yay 10
    doubleCastStep1.suggestion doubleCastStep1.ledger

/-- Third event: the reviewer then removes the approve reaction. -/
def doubleCastStep3 : VoteOutcome :=
  process_vote cfg53 sampleEnv 901 VoteType.nay 10
    doubleCastStep2.suggestion doubleCastStep2.ledger

/-- Opposite-direction scenario: after casting approve
(`doubleCastStep1`), reviewer 10 casts the deny emoji on the same
suggestion. -/
def oppositeCastStep2 : VoteOutcome :=
  process_vote cfg53 sampleEnv 902 VoteType.yay 10
    doubleCastStep1.suggestion doubleCastStep1.ledger

/-- The `council_votes` table never holds two rows with the same
`(suggestion_index, user_id)` key (the unique constraint behind the
`ON CONFLICT` upsert). -/
def ledgerKeysUnique (l : List CouncilVote) : Prop :=
  l.Pairwise fun a b =>
    a.suggestion_index ≠ b.suggestion_index ∨ a.user_id ≠ b.user_id

/- Helper lemmas about the embedded operations. -/

theorem applyTally_upvotes (a : Bool) (vt : VoteType) (s : SuggestionRecord) :
    (applyTally a vt s).upvotes =
      if a then s.upvotes + vt.operator else s.upvotes := by
  cases a <;> rfl

theorem applyTally_downvotes (a : Bool) (vt : VoteType) (s : SuggestionRecord) :
    (applyTally a vt s).downvotes =
      if a then s.downvotes else s.downvotes + vt.operator := by
  cases a <;> rfl

theorem applyTally_idx (a : Bool) (vt : VoteType) (s : SuggestionRecord) :
    (applyTally a vt s).idx = s.idx := by
  cases a <;> rfl

theorem applyTally_public_message_id (a : Bool) (vt : VoteType)
    (s : SuggestionRecord) :
    (applyTally a vt s).public_message_id = s.public_message_id := by
  cases a <;> rfl

theorem applyTally_council_approved (a : Bool) (vt : VoteType)
    (s : SuggestionRecord) :
    (applyTally a vt s).council_approved = s.council_approved := by
  cases a <;> rfl

theorem check_council_votes_below (cfg : Config) (env : Env)
    (s : SuggestionRecord)
    (h : s.upvotes + s.downvotes < cfg.required_votes) :
    check_council_votes cfg env s = (none, s) := by
  unfold check_council_votes
  rw [if_pos h]

theorem process_vote_suggestion_below (cfg : Config) (env : Env) (e : Nat)
    (vt : VoteType) (who : Nat) (s : SuggestionRecord)
    (ledger : List CouncilVote)
    (h : (applyTally (e == cfg.approve_emoji_id) vt s).upvotes +
         (applyTally (e == cfg.approve_emoji_id) vt s).downvotes <
           cfg.required_votes) :
    (process_vote cfg env e vt who s ledger).suggestion =
      applyTally (e == cfg.approve_emoji_id) vt s := by
  unfold process_vote
  by_cases hp :
      (applyTally (e == cfg.approve_emoji_id) vt s).public_message_id.isSome = true
  · simp only [hp, if_true]
  · simp only [hp, if_false, Bool.false_eq_true,
      check_council_votes_below cfg env _ h]

theorem process_vote_approve_tally (cfg : Config) (env : Env) (vt : VoteType)
    (who : Nat) (s : SuggestionRecord) (ledger : List CouncilVote)
    (h : s.upvotes + vt.operator + s.downvotes < cfg.required_votes) :
    (process_vote cfg env cfg.approve_emoji_id vt who s ledger).suggestion.upvotes
        = s.upvotes + vt.operator ∧
    (process_vote cfg env cfg.approve_emoji_id vt who s ledger).suggestion.downvotes
        = s.downvotes := by
  have hb : (cfg.approve_emoji_id == cfg.approve_emoji_id) = true :=
    beq_self_eq_true cfg.approve_emoji_id
  have h' : (applyTally (cfg.approve_emoji_id == cfg.approve_emoji_id) vt s).upvotes +
      (applyTally (cfg.approve_emoji_id == cfg.approve_emoji_id) vt s).downvotes <
        cfg.required_votes := by
    rw [applyTally_upvotes, applyTally_downvotes, hb]
    simpa using h
  rw [process_vote_suggestion_below cfg env _ vt who s ledger h',
    applyTally_upvotes, applyTally_downvotes, hb]
  simp

/-- C1 counterexample: on a fresh pending suggestion, reviewer 10 casting
the approve emoji twice in a row moves the upvote counter to 2 (the second
duplicate cast is counted again), and the subsequent revoke leaves it at 1
rather than at the pre-cast value 0. -/
theorem c1_counterexample :
    doubleCastStep1.suggestion.upvotes = 1 ∧
    doubleCastStep2.suggestion.upvotes = 2 ∧
    ¬ doubleCastStep2.suggestion.upvotes = 1 ∧
    doubleCastStep3.suggestion.upvotes = 1 ∧
    ¬ doubleCastStep3.suggestion.upvotes = 0 := by
  decide

/-- C1 amended: the tally update of `process_vote` is unconditional, so
casting the same direction twice in a row increments the counter once per
cast event (ending 2 above the pre-cast value), and a subsequent revoke
subtracts exactly 1, leaving the counter 1 above the pre-cast value (the
vote total staying below `required_votes`, so no transition interferes). -/
theorem c1_amended (cfg : Config) (env : Env) (who : Nat)
    (s : SuggestionRecord) (ledger : List CouncilVote) (o1 o2 o3 : VoteOutcome)
    (hq : s.upvotes + s.downvotes + 2 < cfg.required_votes)
    (h1 : o1 = process_vote cfg env cfg.approve_emoji_id VoteType.yay who s ledger)
    (h2 : o2 = process_vote cfg env cfg.approve_emoji_id VoteType.yay who
      o1.suggestion o1.ledger)
    (h3 : o3 = process_vote cfg env cfg.approve_emoji_id VoteType.nay who
      o2.suggestion o2.ledger) :
    o1.suggestion.upvotes = s.upvotes + 1 ∧
    o2.suggestion.upvotes = s.upvotes + 2 ∧
    o3.suggestion.upvotes = s.upvotes + 1 := by
  have t1 := process_vote_approve_tally cfg env VoteType.yay who s ledger
    (by simp only [VoteType.operator]; omega)
  rw [← h1] at t1
  simp only [VoteType.operator] at t1
  obtain ⟨t1u, t1d⟩ := t1
  have t2 := process_vote_approve_tally cfg env VoteType.yay who
    o1.suggestion o1.ledger (by simp only [VoteType.operator]; omega)
  rw [← h2] at t2
  simp only [VoteType.operator] at t2
  obtain ⟨t2u, t2d⟩ := t2
  have t3 := process_vote_approve_tally cfg env VoteType.nay who
    o2.suggestion o2.ledger (by simp only [VoteType.operator]; omega)
  rw [← h3] at t3
  simp only [VoteType.operator] at t3
  obtain ⟨t3u, t3d⟩ := t3
  refine ⟨by omega, by omega, by omega⟩

/-- C1 witness: the amended statement evaluated on the concrete
duplicate-cast scenario. -/
theorem c1_amended_witness :
    ((sampleRecord 0 0).upvotes + (sampleRecord 0 0).downvotes + 2 <
      cfg53.required_votes) ∧
    (doubleCastStep1.suggestion.upvotes = (sampleRecord 0 0).upvotes + 1 ∧
     doubleCastStep2.suggestion.upvotes = (sampleRecord 0 0).upvotes + 2 ∧
     doubleCastStep3.suggestion.upvotes = (sampleRecord 0 0).upvotes + 1) :=
  ⟨by decide,
   c1_amended cfg53 sampleEnv 10 (sampleRecord 0 0) [] doubleCastStep1
     doubleCastStep2 doubleCastStep3 (by decide) rfl rfl rfl⟩

/-- C2 counterexample: on a fresh pending suggestion with no recorded
votes, a revoke of the deny emoji (a revoke with no prior matching cast)
is not a no-op: it decrements the downvote counter to -1, below the
claimed floor of 0. -/
theorem c2_counterexample :
    (process_vote cfg53 sampleEnv 902 VoteType.nay 10
      (sampleRecord 0 0) []).suggestion.downvotes = -1 ∧
    (process_vote cfg53 sampleEnv 902 VoteType.nay 10
      (sampleRecord 0 0) []).suggestion.downvotes < 0 := by
  decide

/-- C2 amended: a revoke event always decrements the corresponding tally
counter by one, whatever the ledger holds — in particular with no prior
matching cast — and the counters are not floored at 0: revoking on a zero
counter drives it negative (vote total at or below `required_votes`, so no
transition interferes). -/
theorem c2_amended (cfg : Config) (env : Env) (e : Nat) (who : Nat)
    (s : SuggestionRecord) (ledger : List CouncilVote)
    (hne : (e == cfg.approve_emoji_id) = false)
    (h : s.upvotes + s.downvotes ≤ cfg.required_votes) :
    (process_vote cfg env e VoteType.nay who s ledger).suggestion.downvotes =
      s.downvotes - 1 ∧
    (process_vote cfg env e VoteType.nay who s ledger).suggestion.upvotes =
      s.upvotes ∧
    (s.downvotes = 0 →
      (process_vote cfg env e VoteType.nay who s ledger).suggestion.downvotes < 0) := by
  have h' : (applyTally (e == cfg.approve_emoji_id) VoteType.nay s).upvotes +
      (applyTally (e == cfg.approve_emoji_id) VoteType.nay s).downvotes <
        cfg.required_votes := by
    rw [applyTally_upvotes, applyTally_downvotes, hne]
    simp only [Bool.false_eq_true, if_false, VoteType.operator]
    omega
  rw [process_vote_suggestion_below cfg env e VoteType.nay who s ledger h',
    applyTally_upvotes, applyTally_downvotes, hne]
  simp only [Bool.false_eq_true, if_false, VoteType.operator]
  refine ⟨by omega, by trivial, by omega⟩

/-- C2 witness: the amended statement evaluated on a pending suggestion
with tally (1, 0). -/
theorem c2_amended_witness :
    ((902 == cfg53.approve_emoji_id) = false ∧
     (sampleRecord 1 0).upvotes + (sampleRecord 1 0).downvotes ≤
       cfg53.required_votes) ∧
    ((process_vote cfg53 sampleEnv 902 VoteType.nay 10
        (sampleRecord 1 0) []).suggestion.downvotes =
      (sampleRecord 1 0).downvotes - 1 ∧
     (process_vote cfg53 sampleEnv 902 VoteType.nay 10
        (sampleRecord 1 0) []).suggestion.upvotes = (sampleRecord 1 0).upvotes ∧
     ((sampleRecord 1 0).downvotes = 0 →
      (process_vote cfg53 sampleEnv 902 VoteType.nay 10
        (sampleRecord 1 0) []).suggestion.downvotes < 0)) :=
  ⟨⟨by decide, by decide⟩,
   c2_amended cfg53 sampleEnv 902 10 (sampleRecord 1 0) [] (by decide) (by decide)⟩

/-- C3: the resolution check takes no action when the vote total is below
`required_votes`; otherwise it promotes (resetting the tally first) when
`upvotes - downvotes >= required_difference`, denies when
`downvotes - upvotes >= required_difference`, and otherwise takes no
action; and with `required_votes = 5`, `required_difference = 3`, tally
(4,0) triggers nothing, (4,1) promotes, (1,4) denies, (3,3) triggers
nothing. -/
theorem c3_threshold_policy (cfg : Config) (env : Env) (s : SuggestionRecord)
    (hpend : s.council_approved = none) :
    (s.upvotes + s.downvotes < cfg.required_votes →
      check_council_votes cfg env s = (none, s)) ∧
    (¬ s.upvotes + s.downvotes < cfg.required_votes →
      cfg.required_difference ≤ s.upvotes - s.downvotes →
      check_council_votes cfg env s =
        move_to_public_queue env none none (reset_votes s)) ∧
    (¬ s.upvotes + s.downvotes < cfg.required_votes →
      ¬ cfg.required_difference ≤ s.upvotes - s.downvotes →
      cfg.required_difference ≤ s.downvotes - s.upvotes →
      check_council_votes cfg env s = deny env none none false s) ∧
    (¬ s.upvotes + s.downvotes < cfg.required_votes →
      ¬ cfg.required_difference ≤ s.upvotes - s.downvotes →
      ¬ cfg.required_difference ≤ s.downvotes - s.upvotes →
      check_council_votes cfg env s = (none, s)) ∧
    check_council_votes cfg53 sampleEnv (sampleRecord 4 0) =
      (none, sampleRecord 4 0) ∧
    (check_council_votes cfg53 sampleEnv (sampleRecord 4 1)).1 = none ∧
    (check_council_votes cfg53 sampleEnv (sampleRecord 4 1)).2.council_approved
      = some true ∧
    (check_council_votes cfg53 sampleEnv (sampleRecord 1 4)).1 = none ∧
    (check_council_votes cfg53 sampleEnv (sampleRecord 1 4)).2.council_approved
      = some false ∧
    check_council_votes cfg53 sampleEnv (sampleRecord 3 3) =
      (none, sampleRecord 3 3) := by
  refine ⟨?_, ?_, ?_, ?_,
    by decide, by decide, by decide, by decide, by decide, by decide⟩
  · intro h
    exact check_council_votes_below cfg env s h
  · intro h1 h2
    unfold check_council_votes
    rw [if_neg h1, if_pos h2]
  · intro h1 h2 h3
    unfold check_council_votes
    rw [if_neg h1, if_neg h2, if_pos h3]
  · intro h1 h2 h3
    unfold check_council_votes
    rw [if_neg h1, if_neg h2, if_neg h3]

/-- C3 witness: the no-action branch evaluated at tally (4, 0). -/
theorem c3_witness :
    (sampleRecord 4 0).council_approved = none ∧
    check_council_votes cfg53 sampleEnv (sampleRecord 4 0) =
      (none, sampleRecord 4 0) :=
  ⟨rfl, (c3_threshold_policy cfg53 sampleEnv (sampleRecord 4 0) rfl).1 (by decide)⟩

/-- C4 counterexample: force-approving a pending suggestion with tally
(2, 0) succeeds and reports success, yet leaves the upvote counter at 2
instead of the claimed 0 — only the policy-driven path resets the tally. -/
theorem c4_counterexample :
    (approve_command sampleEnv 10 none true (sampleRecord 2 0)).error = none ∧
    (approve_command sampleEnv 10 none true
      (sampleRecord 2 0)).success_reported = true ∧
    (approve_command sampleEnv 10 none true
      (sampleRecord 2 0)).suggestion.council_approved = some true ∧
    (approve_command sampleEnv 10 none true
      (sampleRecord 2 0)).suggestion.upvotes = 2 ∧
    ¬ (approve_command sampleEnv 10 none true
      (sampleRecord 2 0)).suggestion.upvotes = 0 := by
  decide

/-- C4 amended: a policy-driven promotion resets both counters to zero
(`reset_votes` runs before the move), but a forced promote via
`move_to_public_queue` leaves the counters at their prior values — the
reset happens only on the policy path. -/
theorem c4_amended (cfg : Config) (env : Env) (who : Option Nat)
    (reason : Option String) (s : SuggestionRecord)
    (hpend : s.council_approved = none)
    (hem : env.emoji_found = true)
    (hsum : cfg.required_votes ≤ s.upvotes + s.downvotes)
    (hdiff : cfg.required_difference ≤ s.upvotes - s.downvotes) :
    ((check_council_votes cfg env s).1 = none ∧
     (check_council_votes cfg env s).2.upvotes = 0 ∧
     (check_council_votes cfg env s).2.downvotes = 0 ∧
     (check_council_votes cfg env s).2.council_approved = some true) ∧
    ((move_to_public_queue env who reason s).2.upvotes = s.upvotes ∧
     (move_to_public_queue env who reason s).2.downvotes = s.downvotes) := by
  have hnotlt : ¬ s.upvotes + s.downvotes < cfg.required_votes :=
    not_lt.mpr hsum
  have hspub : s.is_in_public_queue = false := by
    simp [SuggestionRecord.is_in_public_queue, hpend]
  have hpub : (reset_votes s).is_in_public_queue = false := by
    simp [reset_votes, SuggestionRecord.is_in_public_queue, hpend]
  constructor
  · unfold check_council_votes
    rw [if_neg hnotlt, if_pos hdiff]
    unfold move_to_public_queue
    rw [hpub]
    simp [hem, reset_votes]
  · unfold move_to_public_queue
    rw [hspub]
    simp [hem]

/-- C4 witness: the amended statement evaluated at tally (4, 1) with a
forced actor 77. -/
theorem c4_amended_witness :
    ((sampleRecord 4 1).council_approved = none ∧
     sampleEnv.emoji_found = true ∧
     cfg53.required_votes ≤
       (sampleRecord 4 1).upvotes + (sampleRecord 4 1).downvotes ∧
     cfg53.required_difference ≤
       (sampleRecord 4 1).upvotes - (sampleRecord 4 1).downvotes) ∧
    (((check_council_votes cfg53 sampleEnv (sampleRecord 4 1)).1 = none ∧
      (check_council_votes cfg53 sampleEnv (sampleRecord 4 1)).2.upvotes = 0 ∧
      (check_council_votes cfg53 sampleEnv (sampleRecord 4 1)).2.downvotes = 0 ∧
      (check_council_votes cfg53 sampleEnv
        (sampleRecord 4 1)).2.council_approved = some true) ∧
     ((move_to_public_queue sampleEnv (some 77) none
        (sampleRecord 4 1)).2.upvotes = (sampleRecord 4 1).upvotes ∧
      (move_to_public_queue sampleEnv (some 77) none
        (sampleRecord 4 1)).2.downvotes = (sampleRecord 4 1).downvotes)) :=
  ⟨⟨rfl, rfl, by decide, by decide⟩,
   c4_amended cfg53 sampleEnv (some 77) none (sampleRecord 4 1)
     rfl rfl (by decide) (by decide)⟩

/-- C5 counterexample: promoting an already-denied suggestion is not
rejected: `move_to_public_queue` raises nothing and moves the denied
suggestion to the public queue. -/
theorem c5_counterexample :
    deniedRecord.council_approved = some false ∧
    (move_to_public_queue sampleEnv none none deniedRecord).1 = none ∧
    (move_to_public_queue sampleEnv none none
      deniedRecord).2.council_approved = some true := by
  decide

/-- C5 amended: promote fails with an `OperationError` exactly when the
suggestion is already in the public queue — approving an already-denied
suggestion is NOT rejected and moves it to the public queue — while deny
fails with an `OperationError` when already public or already denied; in
every failing case the suggestion row is left unchanged. -/
theorem c5_amended (env : Env) (who : Option Nat) (reason : Option String)
    (revoke : Bool) (s : SuggestionRecord)
    (hem : env.emoji_found = true) :
    (s.council_approved = some true →
      isOpError (move_to_public_queue env who reason s).1 = true ∧
      (move_to_public_queue env who reason s).2 = s) ∧
    (s.council_approved = some false →
      (move_to_public_queue env who reason s).1 = none ∧
      (move_to_public_queue env who reason s).2.council_approved = some true) ∧
    (s.council_approved = some true →
      isOpError (deny env who reason revoke s).1 = true ∧
      (deny env who reason revoke s).2 = s) ∧
    (s.council_approved = some false →
      isOpError (deny env who reason revoke s).1 = true ∧
      (deny env who reason revoke s).2 = s) := by
  refine ⟨?_, ?_, ?_, ?_⟩
  · intro h
    simp [move_to_public_queue, SuggestionRecord.is_in_public_queue, h, isOpError]
  · intro h
    simp [move_to_public_queue, SuggestionRecord.is_in_public_queue, h, hem]
  · intro h
    simp [deny, SuggestionRecord.is_in_public_queue, h, isOpError]
  · intro h
    simp [deny, SuggestionRecord.is_in_public_queue,
      SuggestionRecord.is_denied, h, hem, isOpError]

/-- C5 witness: the denied-can-be-promoted conjunct evaluated on the
denied sample row with a forced actor 77. -/
theorem c5_amended_witness :
    sampleEnv.emoji_found = true ∧
    ((move_to_public_queue sampleEnv (some 77) none deniedRecord).1 = none ∧
     (move_to_public_queue sampleEnv (some 77) none
       deniedRecord).2.council_approved = some true) :=
  ⟨rfl, (c5_amended sampleEnv (some 77) none false deniedRecord rfl).2.1 rfl⟩

/-- C6 counterexample: a late approve cast on the denied suggestion with
tally (3, 1) re-invokes the resolution check and promotes it (its state
changes from denied to public queue), while a vote on a suggestion that has
a public-queue message writes no ledger entry at all. -/
theorem c6_counterexample :
    deniedRecord31.council_approved = some false ∧
    deniedRecord31.public_message_id = none ∧
    (process_vote cfg53 sampleEnv 901 VoteType.yay 10
      deniedRecord31 []).suggestion.council_approved = some true ∧
    publicRecord.public_message_id.isSome = true ∧
    (process_vote cfg53 sampleEnv 901 VoteType.yay 10 publicRecord []).ledger
      = [] := by
  decide

/-- C6 amended: `process_vote` guards on the public message handle, not on
the lifecycle state: when the suggestion has a public-queue message only
the tally is updated (no ledger write, no resolution check); when it has
none — including when it is already denied — the ledger is written and the
resolution check still runs, so a late vote can change the state
(concretely, the denied (3, 1) suggestion is promoted by one more approve
cast). -/
theorem c6_amended (cfg : Config) (env : Env) (e : Nat) (vt : VoteType)
    (who : Nat) (s : SuggestionRecord) (ledger : List CouncilVote) :
    (∀ m : Nat, s.public_message_id = some m →
      process_vote cfg env e vt who s ledger =
        ⟨none, applyTally (e == cfg.approve_emoji_id) vt s, ledger⟩) ∧
    (s.public_message_id = none →
      process_vote cfg env e vt who s ledger =
        ⟨(check_council_votes cfg env
            (applyTally (e == cfg.approve_emoji_id) vt s)).1,
         (check_council_votes cfg env
            (applyTally (e == cfg.approve_emoji_id) vt s)).2,
         upsertVote ledger s.idx who (e == cfg.approve_emoji_id)
           (vt == VoteType.yay)⟩) ∧
    deniedRecord31.council_approved = some false ∧
    (process_vote cfg53 sampleEnv 901 VoteType.yay 10
      deniedRecord31 []).suggestion.council_approved = some true := by
  refine ⟨?_, ?_, by decide, by decide⟩
  · intro m hm
    unfold process_vote
    have hp : (applyTally (e == cfg.approve_emoji_id) vt s).public_message_id.isSome
        = true := by
      rw [applyTally_public_message_id, hm]
      rfl
    simp only [hp, if_true]
  · intro hm
    unfold process_vote
    have hp : (applyTally (e == cfg.approve_emoji_id) vt s).public_message_id.isSome
        = false := by
      rw [applyTally_public_message_id, hm]
      rfl
    simp only [hp, Bool.false_eq_true, if_false, applyTally_idx]

/-- C6 witness: the no-public-message conjunct evaluated on the denied
(3, 1) suggestion. -/
theorem c6_amended_witness :
    deniedRecord31.public_message_id = none ∧
    process_vote cfg53 sampleEnv 901 VoteType.yay 10 deniedRecord31 [] =
      ⟨(check_council_votes cfg53 sampleEnv
          (applyTally (901 == cfg53.approve_emoji_id) VoteType.yay
            deniedRecord31)).1,
       (check_council_votes cfg53 sampleEnv
          (applyTally (901 == cfg53.approve_emoji_id) VoteType.yay
            deniedRecord31)).2,
       upsertVote [] deniedRecord31.idx 10 (901 == cfg53.approve_emoji_id)
         (VoteType.yay == VoteType.yay)⟩ :=
  ⟨rfl,
   (c6_amended cfg53 sampleEnv 901 VoteType.yay 10 deniedRecord31 []).2.1 rfl⟩

/- Key-preservation helpers for the ledger upsert. -/

theorem setVoteColumn_suggestion_index (a v : Bool) (x : CouncilVote) :
    (setVoteColumn a v x).suggestion_index = x.suggestion_index := by
  cases a <;> rfl

theorem setVoteColumn_user_id (a v : Bool) (x : CouncilVote) :
    (setVoteColumn a v x).user_id = x.user_id := by
  cases a <;> rfl

theorem newVoteRow_suggestion_index (idx who : Nat) (a v : Bool) :
    (newVoteRow idx who a v).suggestion_index = idx := by
  cases a <;> rfl

theorem newVoteRow_user_id (idx who : Nat) (a v : Bool) :
    (newVoteRow idx who a v).user_id = who := by
  cases a <;> rfl

theorem upsert_update_suggestion_index (idx who : Nat) (a v : Bool)
    (x : CouncilVote) :
    (if voteKeyMatches idx who x then setVoteColumn a v x
      else x).suggestion_index = x.suggestion_index := by
  split
  · exact setVoteColumn_suggestion_index a v x
  · rfl

theorem upsert_update_user_id (idx who : Nat) (a v : Bool) (x : CouncilVote) :
    (if voteKeyMatches idx who x then setVoteColumn a v x else x).user_id
      = x.user_id := by
  split
  · exact setVoteColumn_user_id a v x
  · rfl

theorem upsertVote_unique (l : List CouncilVote) (idx who : Nat) (a v : Bool)
    (h : ledgerKeysUnique l) :
    ledgerKeysUnique (upsertVote l idx who a v) := by
  unfold upsertVote
  by_cases hmem : l.any (voteKeyMatches idx who) = true
  · rw [if_pos hmem]
    unfold ledgerKeysUnique at h ⊢
    refine List.Pairwise.map _ ?_ h
    intro x y hxy
    rw [upsert_update_suggestion_index, upsert_update_user_id,
      upsert_update_suggestion_index, upsert_update_user_id]
    exact hxy
  · rw [if_neg hmem]
    unfold ledgerKeysUnique at h ⊢
    rw [List.pairwise_append]
    refine ⟨h, List.pairwise_singleton _ _, ?_⟩
    intro x hx y hy
    simp only [List.mem_singleton] at hy
    subst hy
    rw [newVoteRow_suggestion_index, newVoteRow_user_id]
    have hxf : ¬ voteKeyMatches idx who x = true := by
      intro hc
      exact hmem (List.any_eq_true.mpr ⟨x, hx, hc⟩)
    simp only [voteKeyMatches, Bool.and_eq_true, beq_iff_eq, not_and_or] at hxf
    tauto

/-- C7 counterexample: reviewer 10 casts approve and then casts the deny
emoji on the same pending suggestion; the single ledger row ends with
`has_approved = TRUE` and `has_denied = TRUE` — the opposite-direction cast
did not replace the prior standing intent, and the reviewer stands in both
directions at once. -/
theorem c7_counterexample :
    doubleCastStep1.ledger = [⟨1, 10, some true, none⟩] ∧
    oppositeCastStep2.ledger = [⟨1, 10, some true, some true⟩] := by
  decide

/-- C7 amended: the ledger does keep at most one row per
(submission, reviewer) pair — `process_vote` preserves key uniqueness —
but the row carries two independent direction flags, each last-write-wins
separately: casting the opposite direction sets its own flag without
clearing the prior one, so both can be TRUE at once. -/
theorem c7_amended (cfg : Config) (env : Env) (e : Nat) (vt : VoteType)
    (who : Nat) (s : SuggestionRecord) (ledger : List CouncilVote)
    (idx uid : Nat) (v1 v2 : Bool)
    (h : ledgerKeysUnique ledger) :
    ledgerKeysUnique (process_vote cfg env e vt who s ledger).ledger ∧
    upsertVote (upsertVote [] idx uid true v1) idx uid false v2 =
      [⟨idx, uid, some v1, some v2⟩] := by
  constructor
  · unfold process_vote
    by_cases hp :
        (applyTally (e == cfg.approve_emoji_id) vt s).public_message_id.isSome = true
    · simp only [hp, if_true]
      exact h
    · simp only [hp, Bool.false_eq_true, if_false]
      exact upsertVote_unique _ _ _ _ _ h
  · simp [upsertVote, voteKeyMatches, newVoteRow, setVoteColumn]

/-- C7 witness: the amended statement evaluated on the empty ledger and
the concrete approve-then-deny cast pair. -/
theorem c7_amended_witness :
    ledgerKeysUnique ([] : List CouncilVote) ∧
    (ledgerKeysUnique
      (process_vote cfg53 sampleEnv 901 VoteType.yay 10
        (sampleRecord 0 0) []).ledger ∧
     upsertVote (upsertVote [] 1 10 true true) 1 10 false true =
       [⟨1, 10, some true, some true⟩]) :=
  ⟨List.Pairwise.nil,
   c7_amended cfg53 sampleEnv 901 VoteType.yay 10 (sampleRecord 0 0) []
     1 10 true true List.Pairwise.nil⟩

/-- C8: the `vs` command validates before doing anything — fewer than 2
entries, more than 6 entries, or a duplicated emoji id each produce their
specific refusal while leaving every suggestion row unchanged, staging no
temporary emoji and publishing nothing. -/
theorem c8_vs_validation (entries : List VsEntry) (confirmed : Bool) :
    (entries.length < 2 →
      vs entries confirmed =
        ⟨VsOutcome.tooFew, entries.filterMap VsEntry.suggestion, 0, 0, 0⟩) ∧
    (6 < entries.length →
      vs entries confirmed =
        ⟨VsOutcome.tooMany, entries.filterMap VsEntry.suggestion, 0, 0, 0⟩) ∧
    (¬ entries.length < 2 → ¬ 6 < entries.length →
      (entries.map VsEntry.emoji_id).dedup.length < entries.length →
      vs entries confirmed =
        ⟨VsOutcome.duplicateEmoji, entries.filterMap VsEntry.suggestion,
          0, 0, 0⟩) := by
  refine ⟨?_, ?_, ?_⟩
  · intro h
    unfold vs
    rw [if_pos h]
  · intro h
    unfold vs
    rw [if_neg (by omega), if_pos h]
  · intro h1 h2 h3
    unfold vs
    rw [if_neg h1, if_neg h2, if_pos h3]

/-- C8 witness: the duplicate-entry branch evaluated on
`compare(A, A)`. -/
theorem c8_vs_validation_witness :
    (¬ [dupEntry, dupEntry].length < 2 ∧ ¬ 6 < [dupEntry, dupEntry].length ∧
     ([dupEntry, dupEntry].map VsEntry.emoji_id).dedup.length <
       [dupEntry, dupEntry].length) ∧
    vs [dupEntry, dupEntry] true =
      ⟨VsOutcome.duplicateEmoji,
        [dupEntry, dupEntry].filterMap VsEntry.suggestion, 0, 0, 0⟩ :=
  ⟨⟨by decide, by decide, by decide⟩,
   (c8_vs_validation [dupEntry, dupEntry] true).2.2
     (by decide) (by decide) (by decide)⟩

/-- C9: a staged comparison that is rejected or times out deletes every
temporary staged emoji, publishes no combined message, and returns every
input suggestion row exactly as it was — tallies and states included. -/
theorem c9_vs_reject (entries : List VsEntry)
    (h2 : 2 ≤ entries.length) (h6 : entries.length ≤ 6)
    (hd : ¬ (entries.map VsEntry.emoji_id).dedup.length < entries.length) :
    vs entries false =
      ⟨VsOutcome.rejected, entries.filterMap VsEntry.suggestion,
        entries.length, 0, 0⟩ := by
  unfold vs
  rw [if_neg (by omega), if_neg (by omega), if_neg hd]
  rfl

/-- C9 witness: a rejected comparison of the two public-queue sample
suggestions. -/
theorem c9_vs_reject_witness :
    (2 ≤ [vsEntryA, vsEntryB].length ∧ [vsEntryA, vsEntryB].length ≤ 6 ∧
     ¬ ([vsEntryA, vsEntryB].map VsEntry.emoji_id).dedup.length <
       [vsEntryA, vsEntryB].length) ∧
    vs [vsEntryA, vsEntryB] false =
      ⟨VsOutcome.rejected, [vsEntryA, vsEntryB].filterMap VsEntry.suggestion,
        [vsEntryA, vsEntryB].length, 0, 0⟩ :=
  ⟨⟨by decide, by decide, by decide⟩,
   c9_vs_reject [vsEntryA, vsEntryB] (by decide) (by decide) (by decide)⟩

/-- C10: when the cached emoji for a pending suggestion cannot be
resolved, `move_to_public_queue` returns early — no mutation, no
exception — so the forced `approve` command still reports success while
the suggestion stays pending; `deny` in the same situation raises a
`RuntimeError` and also leaves the row unchanged. -/
theorem c10_missing_emoji (env : Env) (who : Nat) (reason : Option String)
    (s : SuggestionRecord)
    (hpend : s.council_approved = none) (hem : env.emoji_found = false) :
    move_to_public_queue env (some who) reason s = (none, s) ∧
    approve_command env who reason true s = ⟨none, s, true⟩ ∧
    isRuntimeError (deny env (some who) reason false s).1 = true ∧
    (deny env (some who) reason false s).2 = s := by
  have hmv : move_to_public_queue env (some who) reason s = (none, s) := by
    simp [move_to_public_queue, SuggestionRecord.is_in_public_queue, hpend, hem]
  refine ⟨hmv, ?_, ?_, ?_⟩
  · simp [approve_command, hmv]
  · simp [deny, SuggestionRecord.is_in_public_queue,
      SuggestionRecord.is_denied, hpend, hem, isRuntimeError]
  · simp [deny, SuggestionRecord.is_in_public_queue,
      SuggestionRecord.is_denied, hpend, hem]

/-- C10 witness: the silent-approve and raising-deny behaviour evaluated
on the pending (2, 1) suggestion in an environment without the emoji. -/
theorem c10_missing_emoji_witness :
    ((sampleRecord 2 1).council_approved = none ∧
     noEmojiEnv.emoji_found = false) ∧
    (move_to_public_queue noEmojiEnv (some 77) none (sampleRecord 2 1) =
       (none, sampleRecord 2 1) ∧
     approve_command noEmojiEnv 77 none true (sampleRecord 2 1) =
       ⟨none, sampleRecord 2 1, true⟩ ∧
     isRuntimeError
       (deny noEmojiEnv (some 77) none false (sampleRecord 2 1)).1 = true ∧
     (deny noEmojiEnv (some 77) none false (sampleRecord 2 1)).2 =
       sampleRecord 2 1) :=
  ⟨⟨rfl, rfl⟩, c10_missing_emoji noEmojiEnv 77 none (sampleRecord 2 1) rfl rfl⟩

end Queuebot
